import Mathlib

/-!
Verification development for the desk-sentry posture core.

The embedding follows `posture.service.ts` (the `PostureService` class) and the
alert-throttle logic of `pose-detection.component.ts`.  JavaScript numbers are
modelled as exact rationals (`ℚ`); `Math.round` is modelled as
`fun q => ⌊q + 1/2⌋`, which is the JS rounding rule (round half toward +∞);
timestamps (`Date.now()`) are modelled as integers (milliseconds).
-/

set_option maxRecDepth 10000

namespace DeskSentry

/-- A MediaPipe pose landmark: 3D position with a confidence value
(`{x, y, z, visibility}`), coordinates modelled as exact rationals. -/
structure Landmark where
  x : ℚ
  y : ℚ
  z : ℚ
  visibility : ℚ
  deriving DecidableEq, Inhabited

/-- A 3D point, used for the shoulder/ear/hip midpoints. -/
structure Point3 where
  x : ℚ
  y : ℚ
  z : ℚ
  deriving DecidableEq

/-! Landmark indices from the `LANDMARKS` constant of `posture.service.ts`. -/

def NOSE : Nat := 0
def LEFT_SHOULDER : Nat := 11
def RIGHT_SHOULDER : Nat := 12
def LEFT_HIP : Nat := 23
def RIGHT_HIP : Nat := 24
def LEFT_EAR : Nat := 7
def RIGHT_EAR : Nat := 8

/-- Posture status: `'good' | 'fair' | 'poor'`. -/
inductive Status where
  | good
  | fair
  | poor
  deriving DecidableEq, Inhabited

/-- Posture mode: `'sitting' | 'standing'`. -/
inductive PostureMode where
  | sitting
  | standing
  deriving DecidableEq, Inhabited

/-- The `PostureAnalysis` record.  The two angle fields of the source are
`atan2(a, b) * 180 / π` of rational arguments `(a, b)`; since `atan2` is
transcendental we carry the exact rational argument pairs instead
(`forwardHeadAngleArgs`, `shoulderHipAngleArgs`); equal argument pairs give
equal angles.  The `metrics` map is flattened into its three optional keys. -/
structure PostureAnalysis where
  score : ℤ
  status : Status
  message : String
  posture : PostureMode
  forwardHeadAngleArgs : Option (ℚ × ℚ)
  shoulderHipAngleArgs : Option (ℚ × ℚ)
  earShoulderAlignment : Option ℚ
  noseShoulderAlignment : Option ℚ
  hipAlignment : Option ℚ
  deriving DecidableEq, Inhabited

/-- JS `Math.round`: round half toward positive infinity. -/
def jsRound (q : ℚ) : ℤ := ⌊q + 1 / 2⌋

/-- Midpoint of two landmarks, as in the source:
`{x: (a.x+b.x)/2, y: (a.y+b.y)/2, z: (a.z+b.z)/2}`. -/
def midpoint (a b : Landmark) : Point3 :=
  ⟨(a.x + b.x) / 2, (a.y + b.y) / 2, (a.z + b.z) / 2⟩

/-- `areLandmarksVisible`: every landmark present with `visibility > 0.5`.
In this embedding a `Landmark` always carries a `visibility` field, so the
`!== undefined` guard of the source is always satisfied. -/
def areLandmarksVisible (ls : List Landmark) : Bool :=
  ls.all (fun landmark => decide ((0.5 : ℚ) < landmark.visibility))

/-- The status/message if-chain shared verbatim by both scorers
(`score >= 75` good, `score >= 50` fair, else poor). -/
def statusOf (score : ℤ) : Status :=
  if 75 ≤ score then Status.good
  else if 50 ≤ score then Status.fair
  else Status.poor

/-- Sitting-scorer message for a given (already rounded) score. -/
def sittingMessage (score : ℤ) : String :=
  if 75 ≤ score then "✓ Excellent sitting posture!"
  else if 50 ≤ score then "⚠ Head too far forward"
  else "✗ Slouching - sit up straight!"

/-- Standing-scorer message for a given (already rounded) score. -/
def standingMessage (score : ℤ) : String :=
  if 75 ≤ score then "✓ Excellent posture!"
  else if 50 ≤ score then "⚠ Sit up straighter"
  else "✗ Slouching detected!"

/-- `analyzeSittingPosture` of `posture.service.ts`: forward-head / nose-lean /
shoulder-symmetry scoring.  The sequential `score -= penalty` mutations of the
source become a chain of conditional lets. -/
def analyzeSittingPosture (lm : List Landmark) : PostureAnalysis :=
  let leftShoulder := lm.getD LEFT_SHOULDER default
  let rightShoulder := lm.getD RIGHT_SHOULDER default
  let leftEar := lm.getD LEFT_EAR default
  let rightEar := lm.getD RIGHT_EAR default
  let nose := lm.getD NOSE default
  let shoulderMidpoint := midpoint leftShoulder rightShoulder
  let earMidpoint := midpoint leftEar rightEar
  let forwardHeadDistance := earMidpoint.x - shoulderMidpoint.x
  let earShoulderDepth := earMidpoint.z - shoulderMidpoint.z
  let noseForwardDist := nose.x - shoulderMidpoint.x
  let score0 : ℚ := 100
  let score1 := if |forwardHeadDistance| > 0.05 then score0 - |forwardHeadDistance| * 300 else score0
  let score2 := if earShoulderDepth < -0.02 then score1 - |earShoulderDepth| * 200 else score1
  let score3 := if noseForwardDist > 0.08 then score2 - (noseForwardDist - 0.08) * 150 else score2
  let shoulderImbalance := |leftShoulder.y - rightShoulder.y|
  let score4 := if shoulderImbalance > 0.05 then score3 - shoulderImbalance * 100 else score3
  let score := jsRound (min 100 (max 0 score4))
  { score := score
    status := statusOf score
    message := sittingMessage score
    posture := PostureMode.sitting
    forwardHeadAngleArgs := some (forwardHeadDistance, |earMidpoint.y - shoulderMidpoint.y|)
    shoulderHipAngleArgs := none
    earShoulderAlignment := some forwardHeadDistance
    noseShoulderAlignment := some noseForwardDist
    hipAlignment := none }

/-- `analyzeStandingPosture` of `posture.service.ts`: tiered forward-lean
scoring with a horizontal-alignment penalty. -/
def analyzeStandingPosture (lm : List Landmark) : PostureAnalysis :=
  let leftShoulder := lm.getD LEFT_SHOULDER default
  let rightShoulder := lm.getD RIGHT_SHOULDER default
  let leftHip := lm.getD LEFT_HIP default
  let rightHip := lm.getD RIGHT_HIP default
  let shoulderMidpoint := midpoint leftShoulder rightShoulder
  let hipMidpoint := midpoint leftHip rightHip
  let forwardLeanDepth := shoulderMidpoint.z - hipMidpoint.z
  let horizontalAlignment := |shoulderMidpoint.x - hipMidpoint.x|
  let deltaX := shoulderMidpoint.x - hipMidpoint.x
  let deltaY := shoulderMidpoint.y - hipMidpoint.y
  let alignment : ℚ :=
    if forwardLeanDepth > 0.02 then 100
    else if forwardLeanDepth > -0.05 then 80 - |forwardLeanDepth| * 400
    else max 0 (60 - |forwardLeanDepth| * 600)
  let alignment2 := max 0 (alignment - horizontalAlignment * 200)
  let score := jsRound (min 100 (max 0 alignment2))
  { score := score
    status := statusOf score
    message := standingMessage score
    posture := PostureMode.standing
    forwardHeadAngleArgs := none
    shoulderHipAngleArgs := some (deltaX, deltaY)
    earShoulderAlignment := none
    noseShoulderAlignment := none
    hipAlignment := some forwardLeanDepth }

/-- `analyzePosture` of `posture.service.ts`: rejects frames with fewer than
33 landmarks, requires shoulders/ears/nose visible, then routes on hip
visibility (visible hips → standing, else sitting). -/
def analyzePosture (lm : List Landmark) : Option PostureAnalysis :=
  if lm.length < 33 then none
  else if areLandmarksVisible [lm.getD LEFT_SHOULDER default, lm.getD RIGHT_SHOULDER default,
      lm.getD LEFT_EAR default, lm.getD RIGHT_EAR default, lm.getD NOSE default] then
    if areLandmarksVisible [lm.getD LEFT_HIP default, lm.getD RIGHT_HIP default] then
      some (analyzeStandingPosture lm)
    else
      some (analyzeSittingPosture lm)
  else none

/-! ## The alert throttle (`pose-detection.component.ts`) -/

/-- The component's throttle state: `lastNotificationTime` (ms timestamp, 0 at
start) and `lastPostureStatus` (`null` at start). -/
structure AlertState where
  lastNotificationTime : ℤ
  lastPostureStatus : Option Status
  deriving DecidableEq, Inhabited

/-- `notificationCooldown = 60000` ms — one minute between notifications. -/
def notificationCooldown : ℤ := 60000

/-- Initial component state: `lastNotificationTime = 0`,
`lastPostureStatus = null`. -/
def initialAlertState : AlertState := ⟨0, none⟩

/-- `checkAndSendNotification`: suppress when `now - lastNotificationTime <
notificationCooldown`; otherwise emit the alert request and record `now`.
The returned `Bool` is `true` when an alert request is emitted (the
notification channel is modelled as available, as in the Electron path). -/
def checkAndSendNotification (now : ℤ) (s : AlertState) : AlertState × Bool :=
  if now - s.lastNotificationTime < notificationCooldown then (s, false)
  else ({ s with lastNotificationTime := now }, true)

/-- The throttle part of `onPoseResults` for a frame that produced an
analysis: reset the cooldown on a poor → non-poor improvement edge, record the
status, and fire `checkAndSendNotification` only on poor frames. -/
def processAnalyzedFrame (now : ℤ) (a : PostureAnalysis) (s : AlertState) :
    AlertState × Bool :=
  let s1 := if s.lastPostureStatus = some Status.poor ∧ a.status ≠ Status.poor
    then { s with lastNotificationTime := 0 } else s
  let s2 := { s1 with lastPostureStatus := some a.status }
  if a.status = Status.poor then checkAndSendNotification now s2 else (s2, false)

/-- One frame of `onPoseResults` as seen by the throttle: when no analysis
exists the state is untouched and no alert is emitted. -/
def processFrame (now : ℤ) (r : Option PostureAnalysis) (s : AlertState) :
    AlertState × Bool :=
  match r with
  | none => (s, false)
  | some a => processAnalyzedFrame now a s

/-- Fold `processFrame` over a list of `(timestamp, analysis)` frames,
returning the final state and the number of emitted alert requests. -/
def processRun : AlertState → List (ℤ × Option PostureAnalysis) → AlertState × ℕ
  | s, [] => (s, 0)
  | s, (t, r) :: rest =>
    let step := processFrame t r s
    let next := processRun step.1 rest
    (next.1, (if step.2 then 1 else 0) + next.2)

/-! ## Concrete fixture frames -/

/-- A fully visible landmark at the origin. -/
def vis1 : Landmark := ⟨0, 0, 0, 1⟩

/-- An invisible landmark (visibility 0). -/
def hid0 : Landmark := ⟨0, 0, 0, 0⟩

/-- A 33-landmark frame with hips hidden (indices 23, 24): routed to the
sitting scorer, perfectly aligned (score 100). -/
def sittingFrame : List Landmark :=
  [vis1, vis1, vis1, vis1, vis1, vis1, vis1, vis1, vis1, vis1,
   vis1, vis1, vis1, vis1, vis1, vis1, vis1, vis1, vis1, vis1,
   vis1, vis1, vis1, hid0, hid0, vis1, vis1, vis1, vis1, vis1,
   vis1, vis1, vis1]

/-- Spec example scenario 1: shoulders (indices 11, 12) at y = 0.3 with z = 0,
hips (indices 23, 24) at y = 0.6 with z = 0.05, everything visible.
`forwardLeanDepth = -0.05`. -/
def standingFrame : List Landmark :=
  [vis1, vis1, vis1, vis1, vis1, vis1, vis1, vis1, vis1, vis1,
   vis1, ⟨0, 0.3, 0, 1⟩, ⟨0, 0.3, 0, 1⟩, vis1, vis1, vis1, vis1, vis1, vis1, vis1,
   vis1, vis1, vis1, ⟨0, 0.6, 0.05, 1⟩, ⟨0, 0.6, 0.05, 1⟩, vis1, vis1, vis1, vis1, vis1,
   vis1, vis1, vis1]

/-- A fully visible landmark with visibility 0.9. -/
def vis09 : Landmark := ⟨0, 0, 0, 0.9⟩

/-- A low-confidence landmark with visibility 0.1. -/
def vis01 : Landmark := ⟨0, 0, 0, 0.1⟩

/-- Spec example scenario 2: hips at visibility 0.1, everything else at 0.9. -/
def lowHipFrame : List Landmark :=
  [vis09, vis09, vis09, vis09, vis09, vis09, vis09, vis09, vis09, vis09,
   vis09, vis09, vis09, vis09, vis09, vis09, vis09, vis09, vis09, vis09,
   vis09, vis09, vis09, vis01, vis01, vis09, vis09, vis09, vis09, vis09,
   vis09, vis09, vis09]

/-! ## Spec-side score formulas (for the refinement claims C4 and C5) -/

/-- The sitting score exactly as the spec words it: 100 minus the four
penalties (each conditional, otherwise 0), clamped to `[0, 100]` and rounded,
with the derived quantities computed from midpoints. -/
def sittingScoreSpec (lm : List Landmark) : ℤ :=
  let leftShoulder := lm.getD LEFT_SHOULDER default
  let rightShoulder := lm.getD RIGHT_SHOULDER default
  let leftEar := lm.getD LEFT_EAR default
  let rightEar := lm.getD RIGHT_EAR default
  let nose := lm.getD NOSE default
  let shoulderMidpoint := midpoint leftShoulder rightShoulder
  let earMidpoint := midpoint leftEar rightEar
  let forwardHeadDistance := earMidpoint.x - shoulderMidpoint.x
  let earShoulderDepth := earMidpoint.z - shoulderMidpoint.z
  let noseForwardDist := nose.x - shoulderMidpoint.x
  let shoulderImbalance := |leftShoulder.y - rightShoulder.y|
  let p1 : ℚ := if |forwardHeadDistance| > 0.05 then |forwardHeadDistance| * 300 else 0
  let p2 : ℚ := if earShoulderDepth < -0.02 then |earShoulderDepth| * 200 else 0
  let p3 : ℚ := if noseForwardDist > 0.08 then (noseForwardDist - 0.08) * 150 else 0
  let p4 : ℚ := if shoulderImbalance > 0.05 then shoulderImbalance * 100 else 0
  jsRound (min 100 (max 0 (100 - p1 - p2 - p3 - p4)))

/-- The standing score exactly as the spec words it: tiered alignment on
`forwardLeanDepth`, with the second tier written as `−0.05 < forwardLeanDepth ≤ 0.02`,
then the horizontal penalty, then round(clamp(·, 0, 100)). -/
def standingScoreSpec (lm : List Landmark) : ℤ :=
  let leftShoulder := lm.getD LEFT_SHOULDER default
  let rightShoulder := lm.getD RIGHT_SHOULDER default
  let leftHip := lm.getD LEFT_HIP default
  let rightHip := lm.getD RIGHT_HIP default
  let shoulderMidpoint := midpoint leftShoulder rightShoulder
  let hipMidpoint := midpoint leftHip rightHip
  let forwardLeanDepth := shoulderMidpoint.z - hipMidpoint.z
  let horizontalAlignment := |shoulderMidpoint.x - hipMidpoint.x|
  let alignment : ℚ :=
    if forwardLeanDepth > 0.02 then 100
    else if -0.05 < forwardLeanDepth ∧ forwardLeanDepth ≤ 0.02 then 80 - |forwardLeanDepth| * 400
    else max 0 (60 - |forwardLeanDepth| * 600)
  let alignment2 := max 0 (alignment - horizontalAlignment * 200)
  jsRound (min 100 (max 0 alignment2))

/-- A copy of `sittingFrame` altered at the unconsumed index 1. -/
def sittingFrameB : List Landmark :=
  [vis1, hid0, vis1, vis1, vis1, vis1, vis1, vis1, vis1, vis1,
   vis1, vis1, vis1, vis1, vis1, vis1, vis1, vis1, vis1, vis1,
   vis1, vis1, vis1, hid0, hid0, vis1, vis1, vis1, vis1, vis1,
   vis1, vis1, vis1]

/-- A 34-landmark, fully visible frame (hips visible → standing scorer). -/
def frame34 : List Landmark :=
  [vis1, vis1, vis1, vis1, vis1, vis1, vis1, vis1, vis1, vis1,
   vis1, vis1, vis1, vis1, vis1, vis1, vis1, vis1, vis1, vis1,
   vis1, vis1, vis1, vis1, vis1, vis1, vis1, vis1, vis1, vis1,
   vis1, vis1, vis1, vis1]

/-- A 20-landmark frame (spec example scenario 3). -/
def frame20 : List Landmark :=
  [vis1, vis1, vis1, vis1, vis1, vis1, vis1, vis1, vis1, vis1,
   vis1, vis1, vis1, vis1, vis1, vis1, vis1, vis1, vis1, vis1]

/-- A fixture throttle state that has just alerted (poor status, recent
alert timestamp). -/
def oscState : AlertState := ⟨100000, some Status.poor⟩

/-- A fixture poor-status analysis (the standing scorer on `standingFrame`
produces exactly this shape: score 30, poor). -/
def poorA : PostureAnalysis :=
  ⟨30, Status.poor, "✗ Slouching detected!", PostureMode.standing,
    none, some (0, -0.3), none, none, some (-0.05)⟩

/-- A fixture good-status analysis. -/
def goodA : PostureAnalysis :=
  ⟨100, Status.good, "✓ Excellent sitting posture!", PostureMode.sitting,
    none, none, none, none, none⟩

/-- Routing of `sittingFrame`: hips hidden, so the sitting scorer runs. -/
lemma analyzePosture_sittingFrame :
    analyzePosture sittingFrame = some (analyzeSittingPosture sittingFrame) := by
  unfold analyzePosture
  rw [if_neg (by decide), if_pos (by with_unfolding_all decide),
    if_neg (by with_unfolding_all decide)]

/-- Routing of `standingFrame`: hips visible, so the standing scorer runs. -/
lemma analyzePosture_standingFrame :
    analyzePosture standingFrame = some (analyzeStandingPosture standingFrame) := by
  unfold analyzePosture
  rw [if_neg (by decide), if_pos (by with_unfolding_all decide),
    if_pos (by with_unfolding_all decide)]

/-- Routing of `lowHipFrame`: hips at visibility 0.1, so the sitting scorer
runs (spec example scenario 2). -/
lemma analyzePosture_lowHipFrame :
    analyzePosture lowHipFrame = some (analyzeSittingPosture lowHipFrame) := by
  unfold analyzePosture
  rw [if_neg (by decide), if_pos (by with_unfolding_all decide),
    if_neg (by with_unfolding_all decide)]



/-! ## Helper lemmas: clamp-and-round bounds, status tiers, projections -/

/-- The clamped-then-rounded score is nonnegative. -/
lemma jsRound_clamp_nonneg (q : ℚ) : 0 ≤ jsRound (min 100 (max 0 q)) := by
  unfold jsRound
  refine Int.le_floor.mpr ?_
  have h1 : (0 : ℚ) ≤ min 100 (max 0 q) := le_min (by norm_num) (le_max_left 0 q)
  push_cast
  linarith

/-- The clamped-then-rounded score is at most 100. -/
lemma jsRound_clamp_le (q : ℚ) : jsRound (min 100 (max 0 q)) ≤ 100 := by
  unfold jsRound
  have h1 : min 100 (max 0 q) ≤ 100 := min_le_left _ _
  have h2 : min 100 (max 0 q) + 1 / 2 < ((101 : ℤ) : ℚ) := by push_cast; linarith
  have := Int.floor_lt.mpr h2
  omega

lemma statusOf_good_iff (n : ℤ) : statusOf n = Status.good ↔ 75 ≤ n := by
  unfold statusOf
  split_ifs with h1 h2 <;> simp_all

lemma statusOf_fair_iff (n : ℤ) : statusOf n = Status.fair ↔ 50 ≤ n ∧ n < 75 := by
  unfold statusOf
  split_ifs with h1 h2 <;> simp_all

lemma statusOf_poor_iff (n : ℤ) : statusOf n = Status.poor ↔ n < 50 := by
  unfold statusOf
  split_ifs with h1 h2 <;> simp_all
  omega

lemma analyzeSittingPosture_posture (lm : List Landmark) :
    (analyzeSittingPosture lm).posture = PostureMode.sitting := rfl

lemma analyzeStandingPosture_posture (lm : List Landmark) :
    (analyzeStandingPosture lm).posture = PostureMode.standing := rfl

lemma analyzeSittingPosture_status (lm : List Landmark) :
    (analyzeSittingPosture lm).status = statusOf (analyzeSittingPosture lm).score := rfl

lemma analyzeStandingPosture_status (lm : List Landmark) :
    (analyzeStandingPosture lm).status = statusOf (analyzeStandingPosture lm).score := rfl

lemma analyzeSittingPosture_message (lm : List Landmark) :
    (analyzeSittingPosture lm).message = sittingMessage (analyzeSittingPosture lm).score := rfl

lemma analyzeStandingPosture_message (lm : List Landmark) :
    (analyzeStandingPosture lm).message = standingMessage (analyzeStandingPosture lm).score := rfl

/-- The sitting score is the clamp-and-round of some rational. -/
lemma analyzeSittingPosture_score_shape (lm : List Landmark) :
    ∃ q : ℚ, (analyzeSittingPosture lm).score = jsRound (min 100 (max 0 q)) :=
  ⟨_, rfl⟩

/-- The standing score is the clamp-and-round of some rational. -/
lemma analyzeStandingPosture_score_shape (lm : List Landmark) :
    ∃ q : ℚ, (analyzeStandingPosture lm).score = jsRound (min 100 (max 0 q)) :=
  ⟨_, rfl⟩

/-- An analysis produced by `analyzePosture` is the output of one of the two
scorers on the same frame. -/
lemma analyzePosture_cases (lm : List Landmark) (a : PostureAnalysis)
    (h : analyzePosture lm = some a) :
    a = analyzeSittingPosture lm ∨ a = analyzeStandingPosture lm := by
  unfold analyzePosture at h
  split_ifs at h
  · exact Or.inr (Option.some.inj h).symm
  · exact Or.inl (Option.some.inj h).symm

/-! ## C1: score range and score-determined status -/

/-- C1: whenever `analyzePosture` returns a `PostureAnalysis`, the score is an
integer in `[0, 100]` and the status is determined by the score alone:
good ⟺ score ≥ 75, fair ⟺ 50 ≤ score < 75, poor ⟺ score < 50, for both the
sitting and the standing scorer. -/
theorem score_bounds_status_iff (lm : List Landmark) (a : PostureAnalysis)
    (h : analyzePosture lm = some a) :
    0 ≤ a.score ∧ a.score ≤ 100 ∧
      (a.status = Status.good ↔ 75 ≤ a.score) ∧
      (a.status = Status.fair ↔ 50 ≤ a.score ∧ a.score < 75) ∧
      (a.status = Status.poor ↔ a.score < 50) := by
  rcases analyzePosture_cases lm a h with rfl | rfl
  · obtain ⟨q, hq⟩ := analyzeSittingPosture_score_shape lm
    refine ⟨?_, ?_, ?_, ?_, ?_⟩
    · rw [hq]; exact jsRound_clamp_nonneg q
    · rw [hq]; exact jsRound_clamp_le q
    · rw [analyzeSittingPosture_status]; exact statusOf_good_iff _
    · rw [analyzeSittingPosture_status]; exact statusOf_fair_iff _
    · rw [analyzeSittingPosture_status]; exact statusOf_poor_iff _
  · obtain ⟨q, hq⟩ := analyzeStandingPosture_score_shape lm
    refine ⟨?_, ?_, ?_, ?_, ?_⟩
    · rw [hq]; exact jsRound_clamp_nonneg q
    · rw [hq]; exact jsRound_clamp_le q
    · rw [analyzeStandingPosture_status]; exact statusOf_good_iff _
    · rw [analyzeStandingPosture_status]; exact statusOf_fair_iff _
    · rw [analyzeStandingPosture_status]; exact statusOf_poor_iff _

/-- Witness for C1 at the concrete frame `sittingFrame`. -/
theorem score_bounds_status_iff_witness :
    analyzePosture sittingFrame = some (analyzeSittingPosture sittingFrame) ∧
      (0 ≤ (analyzeSittingPosture sittingFrame).score ∧
        (analyzeSittingPosture sittingFrame).score ≤ 100 ∧
        ((analyzeSittingPosture sittingFrame).status = Status.good ↔
          75 ≤ (analyzeSittingPosture sittingFrame).score) ∧
        ((analyzeSittingPosture sittingFrame).status = Status.fair ↔
          50 ≤ (analyzeSittingPosture sittingFrame).score ∧
            (analyzeSittingPosture sittingFrame).score < 75) ∧
        ((analyzeSittingPosture sittingFrame).status = Status.poor ↔
          (analyzeSittingPosture sittingFrame).score < 50)) :=
  ⟨analyzePosture_sittingFrame,
    score_bounds_status_iff sittingFrame _ analyzePosture_sittingFrame⟩

/-! ## C4: the sitting score formula, stated from the spec text -/


/-- The sitting scorer computes exactly the spec formula. -/
lemma analyzeSittingPosture_score_spec (lm : List Landmark) :
    (analyzeSittingPosture lm).score = sittingScoreSpec lm := by
  show jsRound _ = jsRound _
  split_ifs <;>
    (apply congrArg jsRound; apply congrArg (min 100); apply congrArg (max 0); ring)

/-- C4: every frame routed to the sitting scorer gets the spec formula score:
100 minus the four conditional penalties, clamped to [0,100] and rounded. -/
theorem sitting_score_spec (lm : List Landmark) (a : PostureAnalysis)
    (h : analyzePosture lm = some a) (hp : a.posture = PostureMode.sitting) :
    a.score = sittingScoreSpec lm := by
  rcases analyzePosture_cases lm a h with rfl | rfl
  · exact analyzeSittingPosture_score_spec lm
  · rw [analyzeStandingPosture_posture] at hp
    exact absurd hp (by simp)

/-- Witness for C4 at the concrete frame `sittingFrame`. -/
theorem sitting_score_spec_witness :
    analyzePosture sittingFrame = some (analyzeSittingPosture sittingFrame) ∧
      (analyzeSittingPosture sittingFrame).posture = PostureMode.sitting ∧
      (analyzeSittingPosture sittingFrame).score = sittingScoreSpec sittingFrame ∧
      (analyzeSittingPosture sittingFrame).score = 100 :=
  ⟨analyzePosture_sittingFrame, rfl,
    sitting_score_spec sittingFrame _ analyzePosture_sittingFrame rfl,
    by with_unfolding_all decide⟩

/-! ## C5: the standing score formula, stated from the spec text -/


/-- The code's else-if tiering agrees with the spec's interval tiering. -/
lemma tier_eq (fl : ℚ) :
    (if fl > 0.02 then (100 : ℚ)
      else if fl > -0.05 then 80 - |fl| * 400
      else max 0 (60 - |fl| * 600)) =
    (if fl > 0.02 then (100 : ℚ)
      else if -0.05 < fl ∧ fl ≤ 0.02 then 80 - |fl| * 400
      else max 0 (60 - |fl| * 600)) := by
  split_ifs with h1 h2 h3 h4 <;> try rfl
  · exact absurd ⟨h2, not_lt.mp h1⟩ h3
  · exact absurd h4.1 h2

/-- The standing scorer computes exactly the spec formula. -/
lemma analyzeStandingPosture_score_spec (lm : List Landmark) :
    (analyzeStandingPosture lm).score = standingScoreSpec lm := by
  show jsRound _ = jsRound _
  rw [tier_eq]

/-- C5: every frame routed to the standing scorer gets the spec formula score:
tiered alignment on forwardLeanDepth, horizontal penalty, round(clamp(·,0,100)). -/
theorem standing_score_spec (lm : List Landmark) (a : PostureAnalysis)
    (h : analyzePosture lm = some a) (hp : a.posture = PostureMode.standing) :
    a.score = standingScoreSpec lm := by
  rcases analyzePosture_cases lm a h with rfl | rfl
  · rw [analyzeSittingPosture_posture] at hp
    exact absurd hp (by simp)
  · exact analyzeStandingPosture_score_spec lm

/-- Witness for C5 at the spec's example standing frame
(`forwardLeanDepth = -0.05`, `horizontalAlignment = 0` ⇒ score 30, status poor). -/
theorem standing_score_spec_witness :
    analyzePosture standingFrame = some (analyzeStandingPosture standingFrame) ∧
      (analyzeStandingPosture standingFrame).posture = PostureMode.standing ∧
      (analyzeStandingPosture standingFrame).score = standingScoreSpec standingFrame ∧
      (analyzeStandingPosture standingFrame).score = 30 ∧
      (analyzeStandingPosture standingFrame).status = Status.poor ∧
      (analyzeStandingPosture standingFrame).message = "✗ Slouching detected!" :=
  ⟨analyzePosture_standingFrame, rfl,
    standing_score_spec standingFrame _ analyzePosture_standingFrame rfl,
    by with_unfolding_all decide, by with_unfolding_all decide,
    by with_unfolding_all decide⟩

/-! ## C6: mode is a pure per-frame function of hip visibility -/

/-- C6: on any frame with at least 33 landmarks whose nose, shoulders and ears
are visible, the reported mode is standing exactly when both hips are visible,
and sitting otherwise — a pure function of the frame, no cross-frame state. -/
theorem mode_pure_in_hip_visibility (lm : List Landmark)
    (h33 : 33 ≤ lm.length)
    (hvis : areLandmarksVisible [lm.getD LEFT_SHOULDER default, lm.getD RIGHT_SHOULDER default,
      lm.getD LEFT_EAR default, lm.getD RIGHT_EAR default, lm.getD NOSE default] = true) :
    (analyzePosture lm).map PostureAnalysis.posture =
      some (if areLandmarksVisible [lm.getD LEFT_HIP default, lm.getD RIGHT_HIP default]
        then PostureMode.standing else PostureMode.sitting) := by
  unfold analyzePosture
  rw [if_neg (by omega), if_pos hvis]
  by_cases hh : areLandmarksVisible [lm.getD LEFT_HIP default, lm.getD RIGHT_HIP default] = true
  · rw [if_pos hh, if_pos hh]
    rfl
  · rw [if_neg hh, if_neg hh]
    rfl

/-- Witness for C6 at the spec's example frame with hips at visibility 0.1
(routed to the sitting scorer). -/
theorem mode_pure_in_hip_visibility_witness :
    33 ≤ lowHipFrame.length ∧
      areLandmarksVisible [lowHipFrame.getD LEFT_SHOULDER default,
        lowHipFrame.getD RIGHT_SHOULDER default, lowHipFrame.getD LEFT_EAR default,
        lowHipFrame.getD RIGHT_EAR default, lowHipFrame.getD NOSE default] = true ∧
      (analyzePosture lowHipFrame).map PostureAnalysis.posture =
        some (if areLandmarksVisible [lowHipFrame.getD LEFT_HIP default,
          lowHipFrame.getD RIGHT_HIP default]
          then PostureMode.standing else PostureMode.sitting) ∧
      areLandmarksVisible [lowHipFrame.getD LEFT_HIP default,
        lowHipFrame.getD RIGHT_HIP default] = false :=
  ⟨by decide, by with_unfolding_all decide,
    mode_pure_in_hip_visibility lowHipFrame (by decide) (by with_unfolding_all decide),
    by with_unfolding_all decide⟩

/-! ## C7: frames without exactly 33 landmarks.

The claim says every input that does not carry exactly 33 landmarks yields
none.  The source only rejects `landmarks.length < 33`, so a frame with MORE
than 33 landmarks is accepted: the claim fails on a 34-landmark frame. -/



/-- Routing of `frame34`: accepted despite having 34 ≠ 33 entries. -/
lemma analyzePosture_frame34 :
    analyzePosture frame34 = some (analyzeStandingPosture frame34) := by
  unfold analyzePosture
  rw [if_neg (by decide), if_pos (by with_unfolding_all decide),
    if_pos (by with_unfolding_all decide)]

/-- Counterexample to C7 as stated: `frame34` does not carry exactly 33
landmarks, yet `analyzePosture` returns an analysis for it. -/
theorem length_not_33_cex :
    frame34.length ≠ 33 ∧ analyzePosture frame34 ≠ none := by
  refine ⟨by decide, ?_⟩
  rw [analyzePosture_frame34]
  simp

/-- C7 as amended: a frame with FEWER than 33 landmarks yields none, and an
analysis exists only when the frame has at least 33 entries and the
mode-required landmarks are all visible (nose/shoulders/ears always; hips too
when the result is the standing mode).  A frame of length 20 yields none. -/
theorem short_frame_none (lm : List Landmark) :
    (lm.length < 33 → analyzePosture lm = none) ∧
      ∀ a, analyzePosture lm = some a →
        33 ≤ lm.length ∧
          areLandmarksVisible [lm.getD LEFT_SHOULDER default, lm.getD RIGHT_SHOULDER default,
            lm.getD LEFT_EAR default, lm.getD RIGHT_EAR default, lm.getD NOSE default] = true ∧
          (a.posture = PostureMode.standing →
            areLandmarksVisible [lm.getD LEFT_HIP default, lm.getD RIGHT_HIP default] = true) := by
  constructor
  · intro h
    unfold analyzePosture
    rw [if_pos h]
  · intro a h
    unfold analyzePosture at h
    split_ifs at h with h1 h2 h3
    · exact ⟨by omega, h2, fun _ => h3⟩
    · refine ⟨by omega, h2, fun hp => ?_⟩
      rw [← Option.some.inj h, analyzeSittingPosture_posture] at hp
      exact absurd hp (by simp)

/-- Witness for C7 (amended) at the 20-landmark frame. -/
theorem short_frame_none_witness :
    frame20.length < 33 ∧ analyzePosture frame20 = none :=
  ⟨by decide, (short_frame_none frame20).1 (by decide)⟩

/-! ## C9: the per-tier messages.

The claim says the message is exactly the spec's bare string (for instance
"Excellent sitting posture!").  The source prefixes every message with a
status glyph and a space ("✓ ", "⚠ ", "✗ "), so the claim fails literally;
the amended claim carries the exact source strings. -/

/-- Counterexample to C9 as stated: the perfect sitting frame's message is
"✓ Excellent sitting posture!", not the spec's bare
"Excellent sitting posture!". -/
theorem message_prefix_cex :
    (analyzePosture sittingFrame).map PostureAnalysis.message =
        some "✓ Excellent sitting posture!" ∧
      "✓ Excellent sitting posture!" ≠ "Excellent sitting posture!" := by
  constructor
  · rw [analyzePosture_sittingFrame, Option.map_some']
    exact congrArg some (by with_unfolding_all decide)
  · decide

/-- C9 as amended: the message is exactly the source string for the score tier
and mode, each carrying its status-glyph prefix. -/
theorem message_strings (lm : List Landmark) (a : PostureAnalysis)
    (h : analyzePosture lm = some a) :
    a.message =
      if a.posture = PostureMode.sitting then
        (if 75 ≤ a.score then "✓ Excellent sitting posture!"
          else if 50 ≤ a.score then "⚠ Head too far forward"
          else "✗ Slouching - sit up straight!")
      else
        (if 75 ≤ a.score then "✓ Excellent posture!"
          else if 50 ≤ a.score then "⚠ Sit up straighter"
          else "✗ Slouching detected!") := by
  rcases analyzePosture_cases lm a h with rfl | rfl
  · rw [analyzeSittingPosture_posture, if_pos rfl, analyzeSittingPosture_message]
    rfl
  · rw [analyzeStandingPosture_posture, if_neg (by simp), analyzeStandingPosture_message]
    rfl

/-- Witness for C9 (amended) at the perfect sitting frame (score 100,
message "✓ Excellent sitting posture!"). -/
theorem message_strings_witness :
    analyzePosture sittingFrame = some (analyzeSittingPosture sittingFrame) ∧
      (analyzeSittingPosture sittingFrame).message =
        (if (analyzeSittingPosture sittingFrame).posture = PostureMode.sitting then
          (if 75 ≤ (analyzeSittingPosture sittingFrame).score then "✓ Excellent sitting posture!"
            else if 50 ≤ (analyzeSittingPosture sittingFrame).score then "⚠ Head too far forward"
            else "✗ Slouching - sit up straight!")
        else
          (if 75 ≤ (analyzeSittingPosture sittingFrame).score then "✓ Excellent posture!"
            else if 50 ≤ (analyzeSittingPosture sittingFrame).score then "⚠ Sit up straighter"
            else "✗ Slouching detected!")) ∧
      (analyzeSittingPosture sittingFrame).message = "✓ Excellent sitting posture!" :=
  ⟨analyzePosture_sittingFrame,
    message_strings sittingFrame _ analyzePosture_sittingFrame,
    by with_unfolding_all decide⟩

/-! ## C10: the analysis depends only on the seven consumed landmarks -/

/-- C10: two frames of at least 33 landmarks that agree on the seven consumed
indices (0 nose, 7/8 ears, 11/12 shoulders, 23/24 hips) get equal analyses —
`analyzePosture` reads no other landmark and no state, so identical frames
always yield identical results on repeated calls. -/
theorem analyze_depends_only_on_key_landmarks (lm1 lm2 : List Landmark)
    (hl1 : 33 ≤ lm1.length) (hl2 : 33 ≤ lm2.length)
    (e0 : lm1.getD NOSE default = lm2.getD NOSE default)
    (e7 : lm1.getD LEFT_EAR default = lm2.getD LEFT_EAR default)
    (e8 : lm1.getD RIGHT_EAR default = lm2.getD RIGHT_EAR default)
    (e11 : lm1.getD LEFT_SHOULDER default = lm2.getD LEFT_SHOULDER default)
    (e12 : lm1.getD RIGHT_SHOULDER default = lm2.getD RIGHT_SHOULDER default)
    (e23 : lm1.getD LEFT_HIP default = lm2.getD LEFT_HIP default)
    (e24 : lm1.getD RIGHT_HIP default = lm2.getD RIGHT_HIP default) :
    analyzePosture lm1 = analyzePosture lm2 := by
  have hc1 : ¬ lm1.length < 33 := by omega
  have hc2 : ¬ lm2.length < 33 := by omega
  unfold analyzePosture
  rw [if_neg hc1, if_neg hc2]
  simp only [analyzeSittingPosture, analyzeStandingPosture, e0, e7, e8, e11, e12, e23, e24]


/-- Witness for C10: `sittingFrame` and `sittingFrameB` differ at index 1 but
agree on the seven consumed indices, so their analyses coincide. -/
theorem analyze_depends_only_on_key_landmarks_witness :
    sittingFrame.getD 1 default ≠ sittingFrameB.getD 1 default ∧
      analyzePosture sittingFrame = analyzePosture sittingFrameB :=
  ⟨by with_unfolding_all decide,
    analyze_depends_only_on_key_landmarks sittingFrame sittingFrameB
      (by decide) (by decide)
      (by with_unfolding_all decide) (by with_unfolding_all decide)
      (by with_unfolding_all decide) (by with_unfolding_all decide)
      (by with_unfolding_all decide) (by with_unfolding_all decide)
      (by with_unfolding_all decide)⟩

/-! ## C2, C3, C8: the alert throttle -/

/-- Routing of `frame20`: rejected for having fewer than 33 landmarks. -/
lemma analyzePosture_frame20 : analyzePosture frame20 = none := by
  unfold analyzePosture
  rw [if_pos (by decide)]

/-- A poor frame inside the cooldown window leaves the throttle state
unchanged and is suppressed. -/
lemma processFrame_poor_suppressed (T t : ℤ) (a : PostureAnalysis)
    (hstatus : a.status = Status.poor) (ht : t - T < notificationCooldown) :
    processFrame t (some a) ⟨T, some Status.poor⟩ = (⟨T, some Status.poor⟩, false) := by
  simp only [processFrame, processAnalyzedFrame, checkAndSendNotification, hstatus]
  simp only [ne_eq, not_true_eq_false, and_false, if_false]
  rw [if_pos ht]
  simp

/-- A poor frame at an eligible instant fires and records the timestamp. -/
lemma processFrame_poor_fires (t : ℤ) (s : AlertState) (a : PostureAnalysis)
    (hstatus : a.status = Status.poor)
    (helig : notificationCooldown ≤ t - s.lastNotificationTime) :
    processFrame t (some a) s = (⟨t, some Status.poor⟩, true) := by
  simp only [processFrame, processAnalyzedFrame, checkAndSendNotification, hstatus]
  simp only [ne_eq, not_true_eq_false, and_false, if_false]
  rw [if_neg (not_lt.mpr helig)]
  simp

/-- A whole run of poor frames inside the cooldown window emits nothing. -/
lemma processRun_poor_suppressed (T : ℤ) (l : List (ℤ × Option PostureAnalysis))
    (hl : ∀ p ∈ l, (∃ a, p.2 = some a ∧ a.status = Status.poor) ∧
      p.1 - T < notificationCooldown) :
    processRun ⟨T, some Status.poor⟩ l = (⟨T, some Status.poor⟩, 0) := by
  revert hl
  induction l with
  | nil => intro hl; rfl
  | cons p rest ih =>
    intro hl
    obtain ⟨⟨a, hpa, hstatus⟩, ht⟩ := hl p (List.mem_cons_self p rest)
    obtain ⟨t, r⟩ := p
    dsimp only at hpa ht
    subst hpa
    simp only [processRun]
    rw [processFrame_poor_suppressed T t a hstatus ht]
    rw [ih (fun q hq => hl q (List.mem_cons_of_mem _ hq))]
    simp

/-- C2: a run of consecutive poor frames starting from an eligible throttle
state, spanning less than the 60 s cooldown, emits exactly one alert request:
the first poor frame fires and every later poor frame of the run (all with
`now - lastAlertTimestamp < 60000`) is suppressed. -/
theorem poor_run_single_alert (s : AlertState) (t0 : ℤ) (a0 : PostureAnalysis)
    (rest : List (ℤ × Option PostureAnalysis))
    (h0 : a0.status = Status.poor)
    (helig : notificationCooldown ≤ t0 - s.lastNotificationTime)
    (hrest : ∀ p ∈ rest, (∃ a, p.2 = some a ∧ a.status = Status.poor) ∧
      p.1 - t0 < notificationCooldown) :
    processFrame t0 (some a0) s =
        ({ lastNotificationTime := t0, lastPostureStatus := some Status.poor }, true) ∧
      processRun s ((t0, some a0) :: rest) =
        ({ lastNotificationTime := t0, lastPostureStatus := some Status.poor }, 1) := by
  have hfirst := processFrame_poor_fires t0 s a0 h0 helig
  refine ⟨hfirst, ?_⟩
  simp only [processRun]
  rw [hfirst]
  rw [processRun_poor_suppressed t0 rest hrest]
  simp

/-- Witness for C2: two poor frames 10 s apart from the initial state — one
alert (the first), one suppression (the second). -/
theorem poor_run_single_alert_witness :
    poorA.status = Status.poor ∧
      notificationCooldown ≤ 100000 - initialAlertState.lastNotificationTime ∧
      processRun initialAlertState [(100000, some poorA), (110000, some poorA)] =
        ({ lastNotificationTime := 100000, lastPostureStatus := some Status.poor }, 1) :=
  ⟨rfl, by decide,
    (poor_run_single_alert initialAlertState 100000 poorA [(110000, some poorA)] rfl
      (by decide)
      (by
        intro p hp
        simp only [List.mem_singleton] at hp
        subst hp
        exact ⟨⟨poorA, rfl, rfl⟩, by decide⟩)).2⟩

/-- C3: from a state with `lastStatus = poor`, a non-poor analyzed frame
resets `lastAlertTimestamp` to the epoch value 0, so the next poor analyzed
frame fires again no matter how recently the previous alert fired (any
wall-clock instant at least one cooldown after the epoch, as every real
`Date.now()` value is). -/
theorem improvement_reset_realerts (s : AlertState)
    (hs : s.lastPostureStatus = some Status.poor)
    (a b : PostureAnalysis) (ha : a.status ≠ Status.poor) (hb : b.status = Status.poor)
    (t1 t2 : ℤ) (ht : notificationCooldown ≤ t2) :
    (processFrame t1 (some a) s).1.lastNotificationTime = 0 ∧
      (processFrame t2 (some b) (processFrame t1 (some a) s).1).2 = true := by
  have h1 : processFrame t1 (some a) s = (⟨0, some a.status⟩, false) := by
    have hcond : s.lastPostureStatus = some Status.poor ∧ a.status ≠ Status.poor := ⟨hs, ha⟩
    unfold processFrame processAnalyzedFrame
    dsimp only
    rw [if_pos hcond, if_neg ha]
  rw [h1]
  refine ⟨rfl, ?_⟩
  have h2 := processFrame_poor_fires t2 ⟨0, some a.status⟩ b hb (by simpa using ht)
  rw [h2]

/-- Witness for C3: alert at t = 100000 ms, good frame at t = 100001 ms, poor
frame at t = 100002 ms — the second alert fires 2 ms after the first. -/
theorem improvement_reset_realerts_witness :
    oscState.lastPostureStatus = some Status.poor ∧
      goodA.status ≠ Status.poor ∧ poorA.status = Status.poor ∧
      notificationCooldown ≤ 100002 ∧
      (processFrame 100001 (some goodA) oscState).1.lastNotificationTime = 0 ∧
      (processFrame 100002 (some poorA) (processFrame 100001 (some goodA) oscState).1).2
        = true := by
  have h := improvement_reset_realerts oscState rfl goodA poorA (by decide) rfl
    100001 100002 (by decide)
  exact ⟨rfl, by decide, rfl, by decide, h.1, h.2⟩

/-- C8: a frame that yields no analysis leaves the throttle state completely
unchanged and emits no alert request. -/
theorem no_analysis_state_frozen (lm : List Landmark) (t : ℤ) (s : AlertState)
    (h : analyzePosture lm = none) :
    processFrame t (analyzePosture lm) s = (s, false) := by
  rw [h]
  rfl

/-- Witness for C8 at the 20-landmark frame and an arbitrary state. -/
theorem no_analysis_state_frozen_witness :
    analyzePosture frame20 = none ∧
      processFrame 12345 (analyzePosture frame20) initialAlertState =
        (initialAlertState, false) :=
  ⟨analyzePosture_frame20,
    no_analysis_state_frozen frame20 12345 initialAlertState analyzePosture_frame20⟩

end DeskSentry
